import Mathlib

/-!
Verification of the Monad EVM adapter crate (crates/monad-evm/src/lib.rs).

The crate under verification is a thin wrapper: a session type MonadEvm
(inner engine + an instrumentation dispatch flag) and a factory
MonadEvmFactory with two construction paths.  The inner execution engine
(monad-revm), the revm context types and the alloy environment types are
sibling crates of the repository that are not part of the provided source;
they are modelled from the specification, as marked on each definition.
-/

set_option linter.unusedVariables false

/-- Modelled from the spec: an account address (alloy primitive, missing
from the provided source); 160-bit value abstracted as a natural number. -/
abbrev Address := Nat

/-- Modelled from the spec: a byte string (alloy primitive, missing from
the provided source). -/
abbrev Bytes := List Nat

/-- Modelled from the spec: a structured, non-error reason why execution
stopped short of normal completion (revm type, missing from the provided
source). -/
inductive HaltReason where
  | OutOfGas : HaltReason
  | InvalidOpcode : HaltReason
  | InsufficientFunds : HaltReason
deriving DecidableEq, Repr

/-- Modelled from the spec: the business outcome of one execution — a
success, a revert, or a halt reason (revm type, missing from the provided
source). -/
inductive ExecutionResult where
  | Success (gasUsed : Nat) (output : Bytes) : ExecutionResult
  | Revert (gasUsed : Nat) (output : Bytes) : ExecutionResult
  | Halt (reason : HaltReason) : ExecutionResult
deriving DecidableEq, Repr

/-- Modelled from the spec: the per-call result — outcome plus the state
diff produced by execution (revm type, missing from the provided source). -/
structure ResultAndState where
  result : ExecutionResult
  state : List (Nat × Nat)
deriving DecidableEq, Repr

/-- Modelled from the spec: the error channel of execution.  A Database
variant carries a backend failure verbatim; a Transaction variant carries
a transaction-validation failure (revm type, missing from the provided
source). -/
inductive EVMError (E : Type) where
  | Transaction (reason : Nat) : EVMError E
  | Database (err : E) : EVMError E
deriving DecidableEq, Repr

/-- Modelled from the spec: the block context bound to a session (revm
BlockEnv, missing from the provided source). -/
structure BlockEnv where
  number : Nat
  beneficiary : Address
  timestamp : Nat
  gas_limit : Nat
  basefee : Nat
  difficulty : Nat
deriving DecidableEq, Repr

/-- Modelled from the spec: the protocol/fork identifier of the chain
(monad-revm MonadSpecId, missing from the provided source). -/
inductive MonadSpecId where
  | V1 : MonadSpecId
  | V2 : MonadSpecId
deriving DecidableEq, Repr

/-- Modelled from the spec: the generic chain configuration — chain id,
protocol identifier and feature fields shared with the chain-specific
form (revm CfgEnv over MonadSpecId, missing from the provided source). -/
structure CfgEnv where
  chain_id : Nat
  spec : MonadSpecId
  limit_contract_code_size : Option Nat
deriving DecidableEq, Repr

/-- Modelled from the spec: the chain-specific configuration, a superset
of the generic configuration adding chain-specific defaults such as an
enlarged maximum contract-code size (monad-revm MonadCfgEnv, missing from
the provided source). -/
structure MonadCfgEnv where
  inner : CfgEnv
  monad_max_code_size : Nat
deriving DecidableEq, Repr

/-- Modelled from the spec: one-way conversion from the generic
configuration, applying the chain-specific default code-size limit of
128KB; shared fields are carried over unchanged. -/
def MonadCfgEnv.from_cfg_env (c : CfgEnv) : MonadCfgEnv :=
  { inner := c, monad_max_code_size := 128 * 1024 }

/-- Modelled from the spec: the reverse, lossy conversion used at session
teardown — the chain-specific-only fields are dropped and the shared
fields are returned as a generic configuration. -/
def MonadCfgEnv.into_inner (m : MonadCfgEnv) : CfgEnv :=
  m.inner

/-- Modelled from the spec: the chain identifier read off the
chain-specific configuration (delegating to the shared fields). -/
def MonadCfgEnv.chain_id (m : MonadCfgEnv) : Nat :=
  m.inner.chain_id

/-- Modelled from the spec: the generic execution environment handed to
the factory — block context plus generic configuration (alloy EvmEnv over
MonadSpecId, missing from the provided source). -/
structure EvmEnv where
  block_env : BlockEnv
  cfg_env : CfgEnv
deriving DecidableEq, Repr

/-- Modelled from the spec: the protocol-version-keyed precompile set,
selected once at construction from the protocol identifier (monad-revm
MonadPrecompiles, missing from the provided source). -/
structure MonadPrecompiles where
  spec : MonadSpecId
deriving DecidableEq, Repr

/-- Modelled from the spec: the constructor selecting the precompile set
for a protocol identifier. -/
def MonadPrecompiles.new_with_spec (s : MonadSpecId) : MonadPrecompiles :=
  { spec := s }

/-- Modelled from the spec: the journaling wrapper around the state
backend; the journal internals belong to the inner engine, so only the
owned backend is represented (revm type, missing from the provided
source). -/
structure JournaledState (DB : Type) where
  database : DB

/-- Modelled from the spec: a transaction environment (revm TxEnv,
missing from the provided source). -/
structure TxEnv where
  caller : Address
  nonce : Nat
  value : Nat
  data : Bytes
deriving DecidableEq, Repr

/-- Modelled from the spec: the engine's execution context — block
context, chain-specific configuration and journaled state over the
backend (monad-revm MonadContext, missing from the provided source). -/
structure MonadContext (DB : Type) where
  block : BlockEnv
  cfg : MonadCfgEnv
  journaled_state : JournaledState DB

/-- Modelled from the spec: the reserved instrumentation handle that
observes nothing (revm NoOpInspector, missing from the provided
source). -/
structure NoOpInspector where
deriving DecidableEq, Repr

/-- Modelled from the spec: the observer capability for the engine's
context type — a handle of type I is invoked at each instruction boundary
through its hook (revm Inspector trait, missing from the provided
source). -/
class InspectorHook (I : Type) (DB : Type) where
  hook : I → MonadContext DB → MonadContext DB

/-- Modelled from the spec: the no-op handle observes nothing — its hook
leaves the context unchanged. -/
instance instNoOpInspectorHook (DB : Type) : InspectorHook NoOpInspector DB :=
  ⟨fun _ => id⟩

/-- Modelled from the spec: the instruction-level semantics of the inner
engine (monad-revm, missing from the provided source): an initializer
binding a transaction (or an injected system call) to the context, a
fueled small-step instruction relation that may fail with a backend
error, a completion test, and result extraction from the final context. -/
structure EngineSem (DB E : Type) where
  fuel : Nat
  init : TxEnv → MonadContext DB → MonadContext DB
  sys_init : Address → Address → Bytes → MonadContext DB → MonadContext DB
  step : MonadContext DB → Except E (MonadContext DB)
  done : MonadContext DB → Bool
  output : MonadContext DB → ResultAndState

/-- Modelled from the spec: the plain execution loop — instructions are
stepped with no observer until completion, fuel exhaustion, or a backend
error; the context reached is returned together with the error, if
any. -/
def runPlain {DB E : Type} (sem : EngineSem DB E) :
    Nat → MonadContext DB → MonadContext DB × Option E
  | 0, c => (c, none)
  | n + 1, c =>
    if sem.done c then (c, none)
    else
      match sem.step c with
      | Except.error e => (c, some e)
      | Except.ok c2 => runPlain sem n c2

/-- Modelled from the spec: the instrumented execution loop — identical
to the plain loop except that the observer hook is invoked at each
instruction boundary before the instruction executes. -/
def runInspect {DB E : Type} (sem : EngineSem DB E) (hook : MonadContext DB → MonadContext DB) :
    Nat → MonadContext DB → MonadContext DB × Option E
  | 0, c => (c, none)
  | n + 1, c =>
    if sem.done c then (c, none)
    else
      match sem.step (hook c) with
      | Except.error e => (c, some e)
      | Except.ok c2 => runInspect sem hook n c2

/-- Modelled from the spec: the inner engine value — execution context,
instrumentation handle and precompile set (monad-revm MonadEvm, missing
from the provided source). -/
structure InnerMonadEvm (DB I P : Type) where
  ctx : MonadContext DB
  inspector : I
  precompiles : P

/-- Modelled from the spec: the engine's plain entry point — runs one
transaction without invoking the observer; a backend failure is
propagated as a Database error; otherwise the result is extracted from
the final context.  The mutated context is kept in the returned engine. -/
def InnerMonadEvm.transact {DB E I P : Type} (sem : EngineSem DB E)
    (e : InnerMonadEvm DB I P) (tx : TxEnv) :
    Except (EVMError E) ResultAndState × InnerMonadEvm DB I P :=
  let r := runPlain sem sem.fuel (sem.init tx e.ctx)
  match r.2 with
  | some err => (Except.error (EVMError.Database err), { e with ctx := r.1 })
  | none => (Except.ok (sem.output r.1), { e with ctx := r.1 })

/-- Modelled from the spec: the engine's instrumented entry point — the
same execution with the stored handle's hook invoked at each instruction
boundary. -/
def InnerMonadEvm.inspect_tx {DB E I P : Type} [InspectorHook I DB] (sem : EngineSem DB E)
    (e : InnerMonadEvm DB I P) (tx : TxEnv) :
    Except (EVMError E) ResultAndState × InnerMonadEvm DB I P :=
  let r := runInspect sem (InspectorHook.hook e.inspector) sem.fuel (sem.init tx e.ctx)
  match r.2 with
  | some err => (Except.error (EVMError.Database err), { e with ctx := r.1 })
  | none => (Except.ok (sem.output r.1), { e with ctx := r.1 })

/-- Modelled from the spec: the engine's system-call entry point — an
injected call with caller and target fixed by the arguments, run with no
transaction-level validation and no observer. -/
def InnerMonadEvm.system_call_with_caller {DB E I P : Type} (sem : EngineSem DB E)
    (e : InnerMonadEvm DB I P) (caller : Address) (contract : Address) (data : Bytes) :
    Except (EVMError E) ResultAndState × InnerMonadEvm DB I P :=
  let r := runPlain sem sem.fuel (sem.sys_init caller contract data e.ctx)
  match r.2 with
  | some err => (Except.error (EVMError.Database err), { e with ctx := r.1 })
  | none => (Except.ok (sem.output r.1), { e with ctx := r.1 })

/-- The Monad EVM session wrapper (lib.rs lines 35-38): the inner engine
plus the boolean instrumentation dispatch flag. -/
structure MonadEvm (DB I P : Type) where
  inner : InnerMonadEvm DB I P
  inspect : Bool

/-- Session constructor (lib.rs lines 57-62): wraps an engine with a
given dispatch flag. -/
def MonadEvm.new {DB I P : Type} (evm : InnerMonadEvm DB I P) (inspect : Bool) :
    MonadEvm DB I P :=
  { inner := evm, inspect := inspect }

/-- Context accessor (lib.rs lines 42-44): the engine's execution
context. -/
def MonadEvm.ctx {DB I P : Type} (evm : MonadEvm DB I P) : MonadContext DB :=
  evm.inner.ctx

/-- Block accessor (lib.rs lines 96-98): the bound block environment,
reached through the context deref. -/
def MonadEvm.block {DB I P : Type} (evm : MonadEvm DB I P) : BlockEnv :=
  evm.ctx.block

/-- Chain-id accessor (lib.rs lines 100-102): the chain identifier stored
in the chain-specific configuration, reached through the context deref. -/
def MonadEvm.chain_id {DB I P : Type} (evm : MonadEvm DB I P) : Nat :=
  evm.ctx.cfg.chain_id

/-- Transaction dispatch (lib.rs lines 104-113): routes through the
engine's instrumented entry point when the dispatch flag is set and
through the plain entry point otherwise; the engine result is returned
unchanged and the mutated engine is kept in the session. -/
def MonadEvm.transact_raw {DB E I P : Type} [InspectorHook I DB] (sem : EngineSem DB E)
    (evm : MonadEvm DB I P) (tx : TxEnv) :
    Except (EVMError E) ResultAndState × MonadEvm DB I P :=
  if evm.inspect then
    let r := evm.inner.inspect_tx sem tx
    (r.1, { evm with inner := r.2 })
  else
    let r := evm.inner.transact sem tx
    (r.1, { evm with inner := r.2 })

/-- System-call dispatch (lib.rs lines 115-122): delegates to the
engine's system-call entry point; the dispatch flag is not consulted. -/
def MonadEvm.transact_system_call {DB E I P : Type} (sem : EngineSem DB E)
    (evm : MonadEvm DB I P) (caller : Address) (contract : Address) (data : Bytes) :
    Except (EVMError E) ResultAndState × MonadEvm DB I P :=
  let r := evm.inner.system_call_with_caller sem caller contract data
  (r.1, { evm with inner := r.2 })

/-- Session teardown (lib.rs lines 124-130): consumes the session and
returns the state backend plus the generic environment reconstructed
from the block context and the lossy reverse configuration conversion. -/
def MonadEvm.finish {DB I P : Type} (evm : MonadEvm DB I P) : DB × EvmEnv :=
  (evm.inner.ctx.journaled_state.database,
   { block_env := evm.inner.ctx.block, cfg_env := evm.inner.ctx.cfg.into_inner })

/-- Flag toggle (lib.rs lines 132-134): sets the dispatch flag and
nothing else. -/
def MonadEvm.set_inspector_enabled {DB I P : Type} (evm : MonadEvm DB I P) (enabled : Bool) :
    MonadEvm DB I P :=
  { evm with inspect := enabled }

/-- Component exposure (lib.rs lines 136-142): the held state backend,
instrumentation handle and precompile set. -/
def MonadEvm.components {DB I P : Type} (evm : MonadEvm DB I P) : DB × I × P :=
  (evm.inner.ctx.journaled_state.database, evm.inner.inspector, evm.inner.precompiles)

/-- Mutable component exposure (lib.rs lines 144-150), modelled as a
functional update: the caller's mutation f is applied to the three
components and written back to the same three fields read by
MonadEvm.components; nothing else changes. -/
def MonadEvm.updateComponents {DB I P : Type} (f : DB × I × P → DB × I × P)
    (evm : MonadEvm DB I P) : MonadEvm DB I P :=
  let t := f evm.components
  { evm with
    inner := { ctx := { evm.inner.ctx with journaled_state := { database := t.1 } },
               inspector := t.2.1,
               precompiles := t.2.2 } }

/-- Default factory path (lib.rs lines 170-187): extracts the protocol
identifier from the spec field of the generic config, converts the
generic config to the chain-specific form, builds the engine bound to
backend, block and config with the no-op handle and the precompile set
selected from the identifier, and clears the dispatch flag. -/
def MonadEvmFactory.create_evm {DB : Type} (db : DB) (input : EvmEnv) :
    MonadEvm DB NoOpInspector MonadPrecompiles :=
  let spec_id := input.cfg_env.spec
  let monad_cfg := MonadCfgEnv.from_cfg_env input.cfg_env
  { inner := { ctx := { block := input.block_env, cfg := monad_cfg,
                        journaled_state := { database := db } },
               inspector := NoOpInspector.mk,
               precompiles := MonadPrecompiles.new_with_spec spec_id },
    inspect := false }

/-- Instrumented factory path (lib.rs lines 189-207): the identical
construction sequence, but the caller's handle is attached and the
dispatch flag is set. -/
def MonadEvmFactory.create_evm_with_inspector {DB I : Type} (db : DB) (input : EvmEnv)
    (inspector : I) : MonadEvm DB I MonadPrecompiles :=
  let spec_id := input.cfg_env.spec
  let monad_cfg := MonadCfgEnv.from_cfg_env input.cfg_env
  { inner := { ctx := { block := input.block_env, cfg := monad_cfg,
                        journaled_state := { database := db } },
               inspector := inspector,
               precompiles := MonadPrecompiles.new_with_spec spec_id },
    inspect := true }

/-! Concrete fixtures used by the witness theorems. -/

/-- A concrete block environment for witnesses. -/
def blockW : BlockEnv :=
  { number := 1, beneficiary := 2, timestamp := 3, gas_limit := 1000, basefee := 5,
    difficulty := 0 }

/-- A concrete generic configuration for witnesses. -/
def cfgW : CfgEnv :=
  { chain_id := 143, spec := MonadSpecId.V1, limit_contract_code_size := none }

/-- A concrete generic environment for witnesses. -/
def envW : EvmEnv :=
  { block_env := blockW, cfg_env := cfgW }

/-- A concrete transaction for witnesses. -/
def txW : TxEnv :=
  { caller := 9, nonce := 0, value := 1, data := [] }

/-- A concrete engine semantics for witnesses: each instruction
increments the backend counter, execution completes once the counter
reaches 5, and the result reports the final counter. -/
def semW : EngineSem Nat Nat :=
  { fuel := 10,
    init := fun _ c => c,
    sys_init := fun _ _ _ c => c,
    step := fun c =>
      Except.ok { c with journaled_state := { database := c.journaled_state.database + 1 } },
    done := fun c => decide (5 ≤ c.journaled_state.database),
    output := fun c => { result := ExecutionResult.Success 21000 [],
                         state := [(0, c.journaled_state.database)] } }

/-- A concrete engine semantics for witnesses whose first instruction
fails with backend error 7. -/
def semErrW : EngineSem Nat Nat :=
  { fuel := 3,
    init := fun _ c => c,
    sys_init := fun _ _ _ c => c,
    step := fun _ => Except.error 7,
    done := fun _ => false,
    output := fun c => { result := ExecutionResult.Halt HaltReason.OutOfGas, state := [] } }

/-- A concrete session on the plain path (flag cleared). -/
def sessF : MonadEvm Nat NoOpInspector MonadPrecompiles :=
  MonadEvmFactory.create_evm 0 envW

/-- A concrete session on the instrumented path (flag set). -/
def sessT : MonadEvm Nat NoOpInspector MonadPrecompiles :=
  MonadEvmFactory.create_evm_with_inspector 0 envW NoOpInspector.mk

/-! Theorems. -/

/-- Helper: the instrumented loop with the identity hook coincides with
the plain loop. -/
theorem runInspect_id {DB E : Type} (sem : EngineSem DB E) :
    ∀ (n : Nat) (c : MonadContext DB), runInspect sem id n c = runPlain sem n c := by
  intro n
  induction n with
  | zero => intro c; rfl
  | succ k ih =>
    intro c
    show (if sem.done c then (c, none)
          else match sem.step (id c) with
               | Except.error e => (c, some e)
               | Except.ok c2 => runInspect sem id k c2) =
         (if sem.done c then (c, none)
          else match sem.step c with
               | Except.error e => (c, some e)
               | Except.ok c2 => runPlain sem k c2)
    by_cases h : sem.done c
    · simp [h]
    · simp only [h, if_false, id_eq, Bool.false_eq_true]
      cases sem.step c with
      | error e => rfl
      | ok c2 => exact ih c2

/-- Helper: on an engine holding the no-op handle, the instrumented entry
point coincides with the plain entry point. -/
theorem inspect_tx_noop {DB E P : Type} (sem : EngineSem DB E)
    (e : InnerMonadEvm DB NoOpInspector P) (tx : TxEnv) :
    e.inspect_tx sem tx = e.transact sem tx := by
  have h : (InspectorHook.hook e.inspector : MonadContext DB → MonadContext DB) =
      (id : MonadContext DB → MonadContext DB) := rfl
  unfold InnerMonadEvm.inspect_tx InnerMonadEvm.transact
  rw [h, runInspect_id]

/-- C1: for every session and transaction, transact_raw routes through
the instrumented entry point inspect_tx exactly when the session's
dispatch flag is true, and through the plain entry point transact when it
is false; the flag is the only branch deciding the path — the routing
below holds for every engine semantics, handle, transaction and session
state. -/
theorem transact_raw_routes {DB E I P : Type} [InspectorHook I DB] (sem : EngineSem DB E)
    (evm : MonadEvm DB I P) (tx : TxEnv) :
    (evm.inspect = true →
      evm.transact_raw sem tx =
        ((evm.inner.inspect_tx sem tx).1,
         { evm with inner := (evm.inner.inspect_tx sem tx).2 })) ∧
    (evm.inspect = false →
      evm.transact_raw sem tx =
        ((evm.inner.transact sem tx).1,
         { evm with inner := (evm.inner.transact sem tx).2 })) := by
  constructor
  · intro h
    simp [MonadEvm.transact_raw, h]
  · intro h
    simp [MonadEvm.transact_raw, h]

/-- C1 witness: the routing theorem applied to a concrete instrumented
session and a concrete plain session. -/
theorem transact_raw_routes_witness :
    (sessT.transact_raw semW txW =
      ((sessT.inner.inspect_tx semW txW).1,
       { sessT with inner := (sessT.inner.inspect_tx semW txW).2 })) ∧
    (sessF.transact_raw semW txW =
      ((sessF.inner.transact semW txW).1,
       { sessF with inner := (sessF.inner.transact semW txW).2 })) :=
  ⟨(transact_raw_routes semW sessT txW).1 rfl,
   (transact_raw_routes semW sessF txW).2 rfl⟩

/-- C2: for every engine semantics, backend, environment and transaction,
executing on the session built by create_evm (plain path, flag false) and
on the session built by create_evm_with_inspector with the no-op handle
(flag true) yields identical execution results and identical final
state-backend contents. -/
theorem dispatch_equivalence {DB E : Type} (sem : EngineSem DB E) (db : DB)
    (env : EvmEnv) (tx : TxEnv) :
    ((MonadEvmFactory.create_evm db env).transact_raw sem tx).1 =
      ((MonadEvmFactory.create_evm_with_inspector db env NoOpInspector.mk).transact_raw
        sem tx).1 ∧
    ((MonadEvmFactory.create_evm db env).transact_raw sem tx).2.inner.ctx.journaled_state.database =
      ((MonadEvmFactory.create_evm_with_inspector db env NoOpInspector.mk).transact_raw
        sem tx).2.inner.ctx.journaled_state.database := by
  simp only [MonadEvm.transact_raw, MonadEvmFactory.create_evm,
    MonadEvmFactory.create_evm_with_inspector, if_true, if_false, inspect_tx_noop]
  exact ⟨rfl, rfl⟩

/-- C3: for every backend, environment and handle, the two factory paths
extract the protocol identifier by the same rule (the spec field of the
generic config) and select the same precompile set from it, and the
sessions they build agree on the whole execution context; they differ
only in the attached handle (no-op versus the caller's) and the dispatch
flag (cleared versus set). -/
theorem factory_paths_agree {DB I : Type} (db : DB) (env : EvmEnv) (i : I) :
    (MonadEvmFactory.create_evm db env).inner.precompiles =
      MonadPrecompiles.new_with_spec env.cfg_env.spec ∧
    (MonadEvmFactory.create_evm_with_inspector db env i).inner.precompiles =
      MonadPrecompiles.new_with_spec env.cfg_env.spec ∧
    (MonadEvmFactory.create_evm db env).inner.ctx =
      (MonadEvmFactory.create_evm_with_inspector db env i).inner.ctx ∧
    (MonadEvmFactory.create_evm db env).inner.inspector = NoOpInspector.mk ∧
    (MonadEvmFactory.create_evm db env).inspect = false ∧
    (MonadEvmFactory.create_evm_with_inspector db env i).inner.inspector = i ∧
    (MonadEvmFactory.create_evm_with_inspector db env i).inspect = true :=
  ⟨rfl, rfl, rfl, rfl, rfl, rfl, rfl⟩

/-- C4: for every backend and generic environment E, finish() on the
session returned by create_evm with no transactions executed returns the
backend together with E's block context and a generic config that agrees
with E's config on every shared field (here: the whole generic config,
the chain-specific-only fields being dropped by the reverse
conversion). -/
theorem config_round_trip {DB : Type} (db : DB) (env : EvmEnv) :
    (MonadEvmFactory.create_evm db env).finish =
      (db, { block_env := env.block_env, cfg_env := env.cfg_env }) :=
  rfl

/-- C5: the wrapper is a pure pass-through for the engine's result on
both entry points: whenever the engine returns a backend error, execute
and execute-as-system-call return exactly that error (no retry,
downgrade, or transformation), and an outcome carrying a halt reason is
returned inside the success constructor, not as an error; moreover every
error the engine's plain entry point can produce is a verbatim Database
error. -/
theorem backend_error_propagated {DB E I P : Type} [InspectorHook I DB]
    (sem : EngineSem DB E) (evm : MonadEvm DB I P) (tx : TxEnv)
    (caller : Address) (contract : Address) (data : Bytes) (err : EVMError E) :
    (evm.inspect = true → (evm.inner.inspect_tx sem tx).1 = Except.error err →
      (evm.transact_raw sem tx).1 = Except.error err) ∧
    (evm.inspect = false → (evm.inner.transact sem tx).1 = Except.error err →
      (evm.transact_raw sem tx).1 = Except.error err) ∧
    ((evm.inner.system_call_with_caller sem caller contract data).1 = Except.error err →
      (evm.transact_system_call sem caller contract data).1 = Except.error err) ∧
    (∀ r st, evm.inspect = false →
      (evm.inner.transact sem tx).1 =
        Except.ok { result := ExecutionResult.Halt r, state := st } →
      (evm.transact_raw sem tx).1 =
        Except.ok { result := ExecutionResult.Halt r, state := st }) ∧
    (∀ e2, (evm.inner.transact sem tx).1 = Except.error e2 →
      ∃ de, e2 = EVMError.Database de) := by
  refine ⟨?_, ?_, ?_, ?_, ?_⟩
  · intro h he
    simp [MonadEvm.transact_raw, h, he]
  · intro h he
    simp [MonadEvm.transact_raw, h, he]
  · intro he
    simp [MonadEvm.transact_system_call, he]
  · intro r st h he
    simp [MonadEvm.transact_raw, h, he]
  · intro e2 he
    simp only [InnerMonadEvm.transact] at he
    rcases hr : (runPlain sem sem.fuel (sem.init tx evm.inner.ctx)).2 with _ | errv
    · rw [hr] at he
      simp at he
    · rw [hr] at he
      simp at he
      exact ⟨errv, he.symm⟩

/-- C5 witness: on a concrete engine whose first instruction fails with
backend error 7, both execute (plain path) and execute-as-system-call
return exactly that Database error. -/
theorem backend_error_propagated_witness :
    (sessF.transact_raw semErrW txW).1 = Except.error (EVMError.Database 7) ∧
    (sessF.transact_system_call semErrW 1 2 []).1 = Except.error (EVMError.Database 7) :=
  ⟨(backend_error_propagated semErrW sessF txW 1 2 [] (EVMError.Database 7)).2.1 rfl rfl,
   (backend_error_propagated semErrW sessF txW 1 2 [] (EVMError.Database 7)).2.2.1 rfl⟩

/-- C6: setting the dispatch flag is idempotent — setting it twice to the
same value equals setting it once — and after setting a then b the
session, and hence every later execute, depends only on the last value
b. -/
theorem set_flag_idempotent {DB E I P : Type} [InspectorHook I DB] (sem : EngineSem DB E)
    (evm : MonadEvm DB I P) (a b : Bool) (tx : TxEnv) :
    (evm.set_inspector_enabled b).set_inspector_enabled b = evm.set_inspector_enabled b ∧
    (evm.set_inspector_enabled a).set_inspector_enabled b = evm.set_inspector_enabled b ∧
    ((evm.set_inspector_enabled a).set_inspector_enabled b).transact_raw sem tx =
      (evm.set_inspector_enabled b).transact_raw sem tx :=
  ⟨rfl, rfl, rfl⟩

/-- C7: setting the dispatch flag modifies only the flag: the inner
engine — and with it the instrumentation handle, the execution context,
the state backend and the precompile set — and the bound block
environment are unchanged; no reconstruction of the engine occurs. -/
theorem set_flag_frame {DB I P : Type} (evm : MonadEvm DB I P) (b : Bool) :
    (evm.set_inspector_enabled b).inner = evm.inner ∧
    (evm.set_inspector_enabled b).inner.inspector = evm.inner.inspector ∧
    (evm.set_inspector_enabled b).inner.ctx.journaled_state.database =
      evm.inner.ctx.journaled_state.database ∧
    (evm.set_inspector_enabled b).inner.precompiles = evm.inner.precompiles ∧
    (evm.set_inspector_enabled b).block = evm.block ∧
    (evm.set_inspector_enabled b).inspect = b :=
  ⟨rfl, rfl, rfl, rfl, rfl, rfl⟩

/-- C8: components returns exactly the three held parts — state backend,
instrumentation handle, precompile set — read from the same fields the
execution paths use; a mutation f applied through the mutable exposure is
read back verbatim by components, changes nothing else of the session
(flag, block, config), and the mutated backend is the one later returned
by finish, i.e. the one the session actually holds for execution. -/
theorem components_consistent {DB I P : Type} (evm : MonadEvm DB I P)
    (f : DB × I × P → DB × I × P) :
    evm.components =
      (evm.inner.ctx.journaled_state.database, evm.inner.inspector, evm.inner.precompiles) ∧
    (MonadEvm.updateComponents f evm).components = f evm.components ∧
    (MonadEvm.updateComponents f evm).inner.ctx.block = evm.inner.ctx.block ∧
    (MonadEvm.updateComponents f evm).inner.ctx.cfg = evm.inner.ctx.cfg ∧
    (MonadEvm.updateComponents f evm).inspect = evm.inspect ∧
    ((MonadEvm.updateComponents f evm).finish).1 = (f evm.components).1 :=
  ⟨rfl, rfl, rfl, rfl, rfl, rfl⟩

/-- C9: the block accessor returns the block environment bound at
construction by either factory path, and the chain-id accessor returns
the chain identifier stored in the chain-specific configuration; both are
total functions of the session and leave it unchanged. -/
theorem accessors_correct {DB I P : Type} (db : DB) (env : EvmEnv) (i : I)
    (evm : MonadEvm DB I P) :
    (MonadEvmFactory.create_evm db env).block = env.block_env ∧
    (MonadEvmFactory.create_evm_with_inspector db env i).block = env.block_env ∧
    evm.block = evm.inner.ctx.block ∧
    evm.chain_id = evm.inner.ctx.cfg.chain_id ∧
    (MonadEvmFactory.create_evm db env).chain_id = env.cfg_env.chain_id :=
  ⟨rfl, rfl, rfl, rfl, rfl⟩

/-- C10: for two sessions identical except for the dispatch flag,
execute-as-system-call with the same caller, contract and data produces
the same result and the same final engine state: the system-call path
never consults the flag and always equals the engine's (uninstrumented)
system-call entry point. -/
theorem system_call_flag_independent {DB E I P : Type} (sem : EngineSem DB E)
    (inner : InnerMonadEvm DB I P) (b1 b2 : Bool)
    (caller : Address) (contract : Address) (data : Bytes) :
    ((MonadEvm.new inner b1).transact_system_call sem caller contract data).1 =
      ((MonadEvm.new inner b2).transact_system_call sem caller contract data).1 ∧
    ((MonadEvm.new inner b1).transact_system_call sem caller contract data).2.inner =
      ((MonadEvm.new inner b2).transact_system_call sem caller contract data).2.inner ∧
    ((MonadEvm.new inner b1).transact_system_call sem caller contract data).1 =
      (inner.system_call_with_caller sem caller contract data).1 :=
  ⟨rfl, rfl, rfl⟩
